import Mathlib

/-!
Verification of the authorization core of `src/userAuth.js`
(thecityny/library-customization).

JavaScript strings are modelled as `List Char` (`Str`). JS `undefined` is
modelled with `Option`; a JS runtime `TypeError` (dereferencing `undefined`)
is modelled by an `Option.none` result of the embedded function. The
`domains` JS `Set` is modelled as a `List Str`: `Set.has` is list
membership and `Array.from(domains)` iteration is iteration over the list,
which is faithful for every membership-style use the code makes of it.
The JS regular-expression primitive `string.match(pattern)` used by
`isAuthorized` is modelled in two ways: the authorization logic is
parameterised over an arbitrary matcher `rm : Str → Str → Bool`, and a
concrete executable engine `jsTest` implements JS regex *search* (not
full-match) semantics for the pattern fragment the configuration uses
(literal characters, `.` as any-character, postfix `*`).  The MD5 digest
from Node's `crypto` is an external library call and is modelled as an
opaque parameter `md5 : Str → Str` (a pure function, as the real digest
is deterministic).
-/

/-- JS strings, as lists of characters. -/
abbrev Str := List Char

/-- One entry of a provider profile's `emails` array; its `value` may be
absent (`undefined`). -/
structure EmailEntry where
  value : Option Str
deriving DecidableEq

/-- A provider profile as the code reads it: an optional `emails` array
(Google shape), an optional direct `email` (Slack shape), and an optional
stable `id`. -/
structure Profile where
  emails : Option (List EmailEntry)
  email : Option Str
  id : Option Str
deriving DecidableEq

/-- Embeds `const [{value: userEmail = ''} = {}] = user.emails || []`
(src/userAuth.js line 160): the first email entry's `value`, defaulting to
the empty string when the array or the entry or its value is absent. -/
def firstEmailValue (user : Profile) : Str :=
  match user.emails with
  | none => []
  | some [] => []
  | some (e :: _) => e.value.getD []

/-- Embeds JS `String.prototype.split(sep)` for a one-character separator:
the list of segments between occurrences of `sep` (always non-empty;
`''.split(sep)` is `['']`). -/
def splitAtSep (sep : Char) : List Char → List (List Char)
  | [] => [[]]
  | c :: cs =>
    match splitAtSep sep cs with
    | [] => [[]]
    | seg :: rest => if c = sep then [] :: seg :: rest else (c :: seg) :: rest

/-- Embeds `const [userDomain] = userEmail.split('@').slice(-1)`
(src/userAuth.js line 161): the last segment of the split at `'@'`. -/
def userDomainOf (email : Str) : Str :=
  (splitAtSep '@' email).getLastD []

/-- The first check of src/userAuth.js line 168: `domains.has(userDomain)`. -/
def chkDomain (S : List Str) (user : Profile) : Bool :=
  S.contains (userDomainOf (firstEmailValue user))

/-- The second check of src/userAuth.js line 168: `domains.has(userEmail)`. -/
def chkEmail (S : List Str) (user : Profile) : Bool :=
  S.contains (firstEmailValue user)

/-- The third check of src/userAuth.js lines 162-167 (`checkRegexEmail`):
some set element `domain` has `userDomain.match(domain)` truthy; the loop
returns `true` on the first match and otherwise falls through
(`undefined`, i.e. falsy).  `rm s pat` models `s.match(pat) !== null`. -/
def chkRegex (rm : Str → Str → Bool) (S : List Str) (user : Profile) : Bool :=
  S.any (fun d => rm (userDomainOf (firstEmailValue user)) d)

/-- Embeds `isAuthorized` (src/userAuth.js lines 159-169), parameterised
over the regex-match primitive `rm`. -/
def isAuthorized (rm : Str → Str → Bool) (S : List Str) (user : Profile) : Bool :=
  chkDomain S user || chkEmail S user || chkRegex rm S user

/-- The spec's notion of domain: the substring after the *last* `'@'`,
and the empty string when the email has no `'@'` at all. -/
def afterLastAt : Str → Str
  | [] => []
  | c :: cs => if c = '@' ∧ '@' ∉ cs then cs else afterLastAt cs

/-- An atom of a JS regular expression: `.` (any character) or a literal
character. -/
inductive RAtom where
  | any : RAtom
  | lit : Char → RAtom
deriving DecidableEq

/-- Does a regex atom match one character? -/
def matchAtom : RAtom → Char → Bool
  | .any, _ => true
  | .lit c, d => c = d

/-- Parse a JS regex pattern of the fragment used by the configuration
(literal characters, `.`, postfix `*`) into a list of atoms, each flagged
with whether it is starred. -/
def parseRE : List Char → List (RAtom × Bool)
  | [] => []
  | c :: '*' :: rest =>
    ((if c = '.' then RAtom.any else RAtom.lit c), true) :: parseRE rest
  | c :: rest =>
    ((if c = '.' then RAtom.any else RAtom.lit c), false) :: parseRE rest

/-- Does the parsed regex match some prefix of the string?  Standard
backtracking semantics: a starred atom matches zero or more characters.
Structural recursion on a fuel counter so the function reduces in the
kernel; every call site supplies enough fuel (each recursive call
lexicographically decreases (string length, pattern length), so
`(s.length + 1) * (p.length + 1)` steps always suffice). -/
def matchHere : Nat → List (RAtom × Bool) → List Char → Bool
  | 0, _, _ => false
  | _ + 1, [], _ => true
  | _ + 1, (_, false) :: _, [] => false
  | fuel + 1, (a, false) :: ps, c :: cs => matchAtom a c && matchHere fuel ps cs
  | fuel + 1, (a, true) :: ps, s =>
    matchHere fuel ps s ||
      (match s with
       | [] => false
       | c :: cs => matchAtom a c && matchHere fuel ((a, true) :: ps) cs)

/-- JS `s.match(pat) !== null` for the supported pattern fragment:
*search* semantics, the pattern may match starting at any position of
`s` (including the end-of-string position). -/
def jsTest (s pat : Str) : Bool :=
  let p := parseRE pat
  let fuel := (s.length + 1) * (p.length + 1)
  let rec go : List Char → Bool
    | [] => matchHere fuel p []
    | c :: cs => matchHere fuel p (c :: cs) || go cs
  go s

/-- The derived request-scoped identity record (`req.userInfo`).
`userId` and `email` are `Option` because the JS object fields can be
`undefined` without an error being raised. -/
structure UserInfo where
  userId : Option Str
  analyticsUserId : Str
  email : Option Str
deriving DecidableEq

/-- The environment configuration the auth code reads:
`NODE_ENV === 'development'`, the provider selection
(`authStrategy === 'Slack'` after defaulting), `TEST_EMAIL` (the empty
string models an unset or empty variable — both are falsy under JS `||`),
and the value of `template('footer.defaultEmail')`. -/
structure Env where
  isDev : Bool
  isSlackOauth : Bool
  testEmail : Str
  footerDefaultEmail : Str

/-- `process.env.TEST_EMAIL || template('footer.defaultEmail')`
(src/userAuth.js line 174). -/
def devEmail (env : Env) : Str :=
  if env.testEmail = [] then env.footerDefaultEmail else env.testEmail

/-- `req.session.passport`: when present it holds an optional `user`
profile. -/
structure PassportBox where
  user : Option Profile
deriving DecidableEq

/-- The session record: the serialized passport state and the
`authRedirect` path. -/
structure Session where
  passport : Option PassportBox
  authRedirect : Option Str
deriving DecidableEq

/-- The request state the auth code touches: its session, the result of
passport's `req.isAuthenticated()` (an external framework call, modelled
as a field), the requested path, and the attached `userInfo`. -/
structure Req where
  session : Session
  isAuthenticated : Bool
  path : Str
  userInfo : Option UserInfo
deriving DecidableEq

/-- JS string coercion of a possibly-`undefined` string, as performed by
`+` concatenation: `undefined + 'library' === 'undefinedlibrary'`. -/
def jsStr (o : Option Str) : Str :=
  o.getD ("undefined".data)

/-- `md5(userId + 'library')` (src/userAuth.js line 183), over the opaque
digest `md5`. -/
def analyticsIdOf (md5 : Str → Str) (id : Option Str) : Str :=
  md5 (jsStr id ++ "library".data)

/-- Embeds the production email extraction of src/userAuth.js line 180:
`isSlackOauth ? req.session.passport.user.email
             : req.session.passport.user.emails[0].value`.
The outer `Option` is the JS `TypeError` (dereferencing `undefined`):
`none` means the expression throws; `some em` is the extracted value,
itself possibly `undefined`. -/
def extractProdEmail (slack : Bool) (sess : Session) : Option (Option Str) :=
  match sess.passport with
  | none => none
  | some box =>
    match box.user with
    | none => none
    | some u =>
      if slack then some u.email
      else
        match u.emails with
        | none => none
        | some [] => none
        | some (e :: _) => some e.value

/-- Embeds `setUserInfo` (src/userAuth.js lines 171-186).  Returns the
updated request, or `none` when the JS function throws a `TypeError`.
In development mode the synthetic identity is assigned unconditionally;
in production the email expression is evaluated first (and can throw),
then `req.userInfo = req.userInfo ? req.userInfo : {...}` keeps an
already-present `userInfo`. -/
def setUserInfo (md5 : Str → Str) (env : Env) (req : Req) : Option Req :=
  if env.isDev then
    some { req with userInfo := some (
      { userId := some ("10".data),
        analyticsUserId := md5 ("10library".data),
        email := some (devEmail env) } : UserInfo) }
  else
    match extractProdEmail env.isSlackOauth req.session with
    | none => none
    | some em =>
      let u := ((req.session.passport.getD ⟨none⟩).user).getD
        { emails := none, email := none, id := none }
      some { req with userInfo := some (req.userInfo.getD
        { userId := u.id,
          analyticsUserId := analyticsIdOf md5 u.id,
          email := em }) }

/-- The outcome of the gate middleware: `next()`, `next(Error(msg))`,
`res.redirect(target)`, or a synchronous exception escaping the
handler. -/
inductive GateResult where
  | proceed : GateResult
  | fail : Str → GateResult
  | redirect : Str → GateResult
  | threw : GateResult
deriving DecidableEq

/-- `const passportUser = (req.session.passport || {}).user || {}`
(src/userAuth.js line 144). -/
def passportUserOf (req : Req) : Profile :=
  ((req.session.passport.getD ⟨none⟩).user).getD
    { emails := none, email := none, id := none }

/-- Embeds the gate middleware (src/userAuth.js lines 142-157) as a
function from the request state to the outcome together with the final
request state. -/
def authGate (md5 : Str → Str) (rm : Str → Str → Bool) (env : Env)
    (S : List Str) (req : Req) : GateResult × Req :=
  let passportUser := passportUserOf req
  if env.isDev || (req.isAuthenticated && isAuthorized rm S passportUser) then
    match setUserInfo md5 env req with
    | some r => (.proceed, r)
    | none => (.threw, req)
  else if req.isAuthenticated && !(isAuthorized rm S passportUser) then
    (.fail ("Unauthorized".data), req)
  else
    (.redirect ("/login".data),
      { req with session := { req.session with authRedirect := some req.path } })

/-- One JS whitespace character, as matched by `\s` in the separator
regex (restricted to the ASCII range the configuration can contain). -/
def isJsWs (c : Char) : Bool :=
  c = ' ' || c = '\t' || c = '\n' || c = '\r' || c = '\x0b' || c = '\x0c'

/-- Embeds JS `str.split(/,\s?/g)`: split at every comma, consuming at
most one whitespace character directly after it. -/
def splitCommaWs : List Char → List (List Char)
  | [] => [[]]
  | c :: rest =>
    if c = ',' then
      match rest with
      | [] => [[], []]
      | d :: ds =>
        if isJsWs d then [] :: splitCommaWs ds else [] :: splitCommaWs (d :: ds)
    else
      match splitCommaWs rest with
      | [] => [[c]]
      | seg :: segs => (c :: seg) :: segs

/-- Embeds line 17,
`new Set(process.env.APPROVED_DOMAINS.split(/,\s?/g))`: `none` input
models an absent `APPROVED_DOMAINS`, on which the member access throws a
`TypeError` at module load time (a startup error), modelled as `none`
output. -/
def mkDomains (approvedDomains : Option Str) : Option (List Str) :=
  approvedDomains.map splitCommaWs

example : splitCommaWs ("a b,c, d,,e".data) =
  ["a b".data, "c".data, "d".data, [], "e".data] := by decide
example : splitCommaWs [] = [[]] := by decide
example : mkDomains none = none := by decide

example : ("a@b".data = ['a', '@', 'b']) := by decide

example : userDomainOf ("a@b".data) = "b".data := by decide
example : userDomainOf ("foo".data) = "foo".data := by decide
example : userDomainOf [] = [] := by decide
example : jsTest [] (".*".data) = true := by decide
example : jsTest ("x".data) (".*".data) = true := by decide
example : jsTest [] ("fo".data) = false := by decide
example : jsTest ("foo".data) ("fo".data) = true := by decide
example : jsTest ("exampleXcom".data) ("example.com".data) = true := by decide
example : jsTest ("sub.example.com".data) ("example.com".data) = true := by decide
example : jsTest ("other.org".data) ("example.com".data) = false := by decide
example : jsTest ("abc".data) ("b*c".data) = true := by decide
example : jsTest ("ac".data) ("ab*c".data) = true := by decide
example : jsTest ("abbbc".data) ("ab*c".data) = true := by decide
example : jsTest ("adc".data) ("ab*c".data) = false := by decide

/-! ### Helper lemmas about `splitAtSep` -/

theorem splitAtSep_ne_nil (sep : Char) (l : List Char) : splitAtSep sep l ≠ [] := by
  cases l with
  | nil => simp [splitAtSep]
  | cons c cs =>
    simp only [splitAtSep]
    cases splitAtSep sep cs with
    | nil => simp
    | cons seg rest =>
      show (if c = sep then [] :: seg :: rest else (c :: seg) :: rest) ≠ []
      by_cases hc : c = sep
      · rw [if_pos hc]
        simp
      · rw [if_neg hc]
        simp

theorem splitAtSep_of_not_mem {sep : Char} {l : List Char} (h : sep ∉ l) :
    splitAtSep sep l = [l] := by
  induction l with
  | nil => rfl
  | cons c cs ih =>
    have hc : ¬ c = sep := by
      intro hh
      exact h (hh ▸ List.mem_cons_self c cs)
    have hcs : sep ∉ cs := fun hh => h (List.mem_cons_of_mem _ hh)
    simp only [splitAtSep, ih hcs]
    simp [hc]

theorem two_le_splitAtSep_length {sep : Char} {l : List Char} (h : sep ∈ l) :
    2 ≤ (splitAtSep sep l).length := by
  induction l with
  | nil => cases h
  | cons c cs ih =>
    simp only [splitAtSep]
    cases hr : splitAtSep sep cs with
    | nil => exact absurd hr (splitAtSep_ne_nil sep cs)
    | cons seg rest =>
      by_cases hc : c = sep
      · simp [hc]
      · have hcs : sep ∈ cs := by
          rcases List.mem_cons.mp h with h1 | h2
          · exact absurd h1.symm hc
          · exact h2
        have h2 := ih hcs
        rw [hr] at h2
        simp only [List.length_cons] at h2
        simp only [if_neg hc, List.length_cons]
        omega

theorem getLastD_irrel {α : Type} : ∀ {l : List α}, l ≠ [] →
    ∀ a b : α, l.getLastD a = l.getLastD b := by
  intro l hl a b
  cases l with
  | nil => exact absurd rfl hl
  | cons x xs => rw [List.getLastD_cons, List.getLastD_cons]

/-- C3 (amended form): the `userDomain` computed by `isAuthorized` is the
substring after the last `'@'` when the email contains an `'@'`, and the
*whole email* (not the empty string) when it contains none. -/
theorem userDomainOf_spec (e : Str) :
    userDomainOf e = if '@' ∈ e then afterLastAt e else e := by
  induction e with
  | nil => rfl
  | cons c cs ih =>
    obtain ⟨seg, rest, hr⟩ : ∃ seg rest, splitAtSep '@' cs = seg :: rest := by
      cases hr : splitAtSep '@' cs with
      | nil => exact absurd hr (splitAtSep_ne_nil '@' cs)
      | cons a b => exact ⟨a, b, rfl⟩
    unfold userDomainOf at ih ⊢
    rw [hr] at ih
    simp only [splitAtSep, hr]
    by_cases hc : c = '@'
    · subst hc
      rw [if_pos rfl, List.getLastD_cons]
      have hmem : '@' ∈ '@' :: cs := List.mem_cons_self _ _
      rw [if_pos hmem]
      have unf : afterLastAt ('@' :: cs) =
          if '@' = '@' ∧ '@' ∉ cs then cs else afterLastAt cs := rfl
      by_cases hcs : '@' ∈ cs
      · rw [unf, if_neg (fun h => h.2 hcs)]
        rw [ih, if_pos hcs]
      · rw [unf, if_pos ⟨rfl, hcs⟩]
        rw [ih, if_neg hcs]
    · rw [if_neg hc]
      by_cases hcs : '@' ∈ cs
      · have hmem : '@' ∈ c :: cs := List.mem_cons_of_mem _ hcs
        rw [if_pos hmem]
        have unf : afterLastAt (c :: cs) =
            if c = '@' ∧ '@' ∉ cs then cs else afterLastAt cs := rfl
        rw [unf, if_neg (fun h => hc h.1)]
        have h2 := two_le_splitAtSep_length hcs
        rw [hr] at h2
        simp only [List.length_cons] at h2
        have hrest : rest ≠ [] := by
          intro hnil
          rw [hnil] at h2
          simp at h2
        rw [List.getLastD_cons, getLastD_irrel hrest (c :: seg) seg]
        rw [List.getLastD_cons] at ih
        rw [ih, if_pos hcs]
      · have hmem : '@' ∉ c :: cs := by
          intro h
          rcases List.mem_cons.mp h with h1 | h2
          · exact hc h1.symm
          · exact hcs h2
        rw [if_neg hmem]
        rw [splitAtSep_of_not_mem hcs] at hr
        injection hr.symm with h1 h2
        subst h1
        subst h2
        rfl

/-- C3 (counterexample): for the `'@'`-free email "foo", the `userDomain`
computed by the code is "foo" itself, not the empty string the claim
requires. -/
theorem userDomainOf_noAt_counterexample :
    '@' ∉ ("foo".data) ∧ userDomainOf ("foo".data) ≠ ([] : Str) := by decide

/-- A permutation of a list of Boolean checks has the same disjunction. -/
theorem any_id_perm_eq {l₁ l₂ : List Bool} (h : l₁.Perm l₂) :
    l₁.any id = l₂.any id := by
  rw [Bool.eq_iff_iff, List.any_eq_true, List.any_eq_true]
  exact ⟨fun ⟨x, hx, hf⟩ => ⟨x, h.mem_iff.mp hx, hf⟩,
    fun ⟨x, hx, hf⟩ => ⟨x, h.mem_iff.mpr hx, hf⟩⟩

/-- C1: for every set `S` and profile with first email value `E`,
`isAuthorized` returns true iff the substring of `E` after the last `'@'`
is an element of `S`, or `E` is an element of `S`, or that domain
substring regex-matches (search semantics, via the matcher `rm`) some
element of `S`; in every other case it returns false; and the result
equals the disjunction of the three checks taken in any order. -/
theorem isAuthorized_characterization (rm : Str → Str → Bool) (S : List Str)
    (user : Profile) :
    (isAuthorized rm S user = true ↔
      (userDomainOf (firstEmailValue user) ∈ S ∨ firstEmailValue user ∈ S ∨
        ∃ d ∈ S, rm (userDomainOf (firstEmailValue user)) d = true)) ∧
    (∀ l : List Bool,
      l.Perm [chkDomain S user, chkEmail S user, chkRegex rm S user] →
      l.any id = isAuthorized rm S user) := by
  constructor
  · simp only [isAuthorized, chkDomain, chkEmail, chkRegex, Bool.or_eq_true,
      List.any_eq_true, List.elem_iff]
    tauto
  · intro l hp
    rw [any_id_perm_eq hp]
    simp only [isAuthorized, List.any_cons, List.any_nil, id_eq,
      Bool.or_false, Bool.or_assoc]

/-- C1 (witness): the characterization applied at a concrete set, profile
and check order. -/
theorem isAuthorized_characterization_witness :
    (isAuthorized jsTest ["example.com".data] { emails := some [⟨some ("a@example.com".data)⟩], email := none, id := some ("7".data) } = true ↔
      (userDomainOf (firstEmailValue { emails := some [⟨some ("a@example.com".data)⟩], email := none, id := some ("7".data) }) ∈ ["example.com".data] ∨
        firstEmailValue { emails := some [⟨some ("a@example.com".data)⟩], email := none, id := some ("7".data) } ∈ ["example.com".data] ∨
        ∃ d ∈ ["example.com".data],
          jsTest (userDomainOf (firstEmailValue { emails := some [⟨some ("a@example.com".data)⟩], email := none, id := some ("7".data) })) d = true)) ∧
    ([chkRegex jsTest ["example.com".data] { emails := some [⟨some ("a@example.com".data)⟩], email := none, id := some ("7".data) },
      chkDomain ["example.com".data] { emails := some [⟨some ("a@example.com".data)⟩], email := none, id := some ("7".data) },
      chkEmail ["example.com".data] { emails := some [⟨some ("a@example.com".data)⟩], email := none, id := some ("7".data) }].any id =
      isAuthorized jsTest ["example.com".data] { emails := some [⟨some ("a@example.com".data)⟩], email := none, id := some ("7".data) }) := by
  refine ⟨(isAuthorized_characterization jsTest _ _).1, ?_⟩
  exact (isAuthorized_characterization jsTest _ _).2 _ (by decide)

/-- C2 (counterexample): with the non-empty authorization set { ".*" } and
a profile having no email entries, the code *authorizes*: the empty
`userDomain` regex-matches the catch-all pattern, so `checkRegexEmail`
returns true — contradicting the claim that such a profile is never
authorized. -/
theorem isAuthorized_emptyEmail_counterexample :
    isAuthorized jsTest [".*".data]
      { emails := none, email := none, id := none } = true ∧
    ([".*".data] : List Str) ≠ [] := by decide

/-- C2 (amended): a profile with no email entries is unauthorized — and
`isAuthorized` is total, it cannot throw — provided the empty string is
not itself a set element and no set element regex-matches the empty
string; a catch-all element such as ".*" does authorize it. -/
theorem isAuthorized_emptyEmail_failsClosed (rm : Str → Str → Bool)
    (S : List Str) (user : Profile)
    (hne : S ≠ [])
    (hemails : user.emails = none)
    (hempty : ([] : Str) ∉ S)
    (hrm : ∀ d ∈ S, rm [] d = false) :
    isAuthorized rm S user = false := by
  have h1 : firstEmailValue user = [] := by simp [firstEmailValue, hemails]
  have h2 : userDomainOf ([] : Str) = [] := rfl
  have hcon : S.contains ([] : Str) = false := by
    rw [← Bool.not_eq_true]
    intro hct
    exact hempty (List.elem_iff.mp hct)
  have hany : S.any (fun d => rm [] d) = false := by
    rw [← Bool.not_eq_true]
    intro hct
    obtain ⟨d, hd, hrd⟩ := List.any_eq_true.mp hct
    rw [hrm d hd] at hrd
    cases hrd
  simp only [isAuthorized, chkDomain, chkEmail, chkRegex, h1, h2, hcon, hany,
    Bool.or_false]

/-- C2 (witness): a concrete non-empty set with no empty-matching element
and a concrete email-less profile are rejected. -/
theorem isAuthorized_emptyEmail_failsClosed_witness :
    isAuthorized jsTest ["example.com".data]
      { emails := none, email := none, id := none } = false :=
  isAuthorized_emptyEmail_failsClosed jsTest ["example.com".data]
    { emails := none, email := none, id := none }
    (by decide) rfl (by decide) (by decide)

/-- C4: with development mode off, an authenticated request whose
passport profile fails `isAuthorized` makes the gate call
`next(Error('Unauthorized'))` — the error propagates to the error layer;
no redirect is issued and the request (its `userInfo` and its session)
is left unchanged. -/
theorem authGate_unauthorized (md5 : Str → Str) (rm : Str → Str → Bool)
    (env : Env) (S : List Str) (req : Req)
    (hdev : env.isDev = false)
    (hauth : req.isAuthenticated = true)
    (hna : isAuthorized rm S (passportUserOf req) = false) :
    authGate md5 rm env S req = (GateResult.fail ("Unauthorized".data), req) := by
  simp [authGate, hdev, hauth, hna]

/-- C4 (witness): a concrete authenticated-but-unauthorized request. -/
theorem authGate_unauthorized_witness :
    authGate (fun _ => []) jsTest ⟨false, false, [], []⟩ ["example.com".data]
      ⟨⟨some ⟨some ⟨some [⟨some ("a@other.org".data)⟩], none, some ("7".data)⟩⟩, none⟩,
        true, "/x".data, none⟩ =
      (GateResult.fail ("Unauthorized".data),
        ⟨⟨some ⟨some ⟨some [⟨some ("a@other.org".data)⟩], none, some ("7".data)⟩⟩, none⟩,
          true, "/x".data, none⟩) :=
  authGate_unauthorized (fun _ => []) jsTest ⟨false, false, [], []⟩
    ["example.com".data]
    ⟨⟨some ⟨some ⟨some [⟨some ("a@other.org".data)⟩], none, some ("7".data)⟩⟩, none⟩,
      true, "/x".data, none⟩
    rfl rfl (by decide)

/-- C5: with development mode off, an unauthenticated request makes the
gate store the requested path in the session's `authRedirect` and respond
with a redirect to '/login'; `userInfo` stays what it was (no identity is
attached). -/
theorem authGate_unauthenticated (md5 : Str → Str) (rm : Str → Str → Bool)
    (env : Env) (S : List Str) (req : Req)
    (hdev : env.isDev = false)
    (hauth : req.isAuthenticated = false) :
    authGate md5 rm env S req =
      (GateResult.redirect ("/login".data),
        { req with session := { req.session with authRedirect := some req.path } }) ∧
    (authGate md5 rm env S req).2.userInfo = req.userInfo := by
  constructor
  · simp [authGate, hdev, hauth]
  · simp [authGate, hdev, hauth]

/-- C5 (witness): a concrete session-less request to '/dashboard'. -/
theorem authGate_unauthenticated_witness :
    authGate (fun _ => []) jsTest ⟨false, false, [], []⟩ ["example.com".data]
      ⟨⟨none, none⟩, false, "/dashboard".data, none⟩ =
      (GateResult.redirect ("/login".data),
        ⟨⟨none, some ("/dashboard".data)⟩, false, "/dashboard".data, none⟩) ∧
    (authGate (fun _ => []) jsTest ⟨false, false, [], []⟩ ["example.com".data]
      ⟨⟨none, none⟩, false, "/dashboard".data, none⟩).2.userInfo = none :=
  authGate_unauthenticated (fun _ => []) jsTest ⟨false, false, [], []⟩
    ["example.com".data] ⟨⟨none, none⟩, false, "/dashboard".data, none⟩ rfl rfl

/-- C6: with the development flag set the gate always proceeds, attaching
the synthetic identity (override email `TEST_EMAIL || footer default`,
userId "10", analyticsUserId = digest of the literal "10library") for
*every* request state, and the outcome is independent of the
authorization set and of the regex matcher — the Domain Matcher plays no
part. -/
theorem authGate_devBypass (md5 : Str → Str) (rm rm' : Str → Str → Bool)
    (env : Env) (S S' : List Str) (req : Req)
    (hdev : env.isDev = true) :
    authGate md5 rm env S req =
      (GateResult.proceed,
        { req with userInfo := some (
          { userId := some ("10".data),
            analyticsUserId := md5 ("10library".data),
            email := some (devEmail env) } : UserInfo) }) ∧
    authGate md5 rm' env S' req = authGate md5 rm env S req := by
  constructor
  · simp [authGate, hdev, setUserInfo]
  · simp [authGate, hdev, setUserInfo]

/-- C6 (witness): the development bypass on a concrete request with no
session at all, with a second matcher/set pair giving the same outcome. -/
theorem authGate_devBypass_witness :
    authGate (fun _ => []) jsTest ⟨true, false, "t@x".data, "f@y".data⟩ []
      ⟨⟨none, none⟩, false, "/p".data, none⟩ =
      (GateResult.proceed,
        ⟨⟨none, none⟩, false, "/p".data, some
          ⟨some ("10".data), [], some ("t@x".data)⟩⟩) ∧
    authGate (fun _ => []) (fun _ _ => true) ⟨true, false, "t@x".data, "f@y".data⟩
      ["other".data] ⟨⟨none, none⟩, false, "/p".data, none⟩ =
      authGate (fun _ => []) jsTest ⟨true, false, "t@x".data, "f@y".data⟩ []
        ⟨⟨none, none⟩, false, "/p".data, none⟩ := by
  have h := authGate_devBypass (fun _ => []) jsTest (fun _ _ => true)
    ⟨true, false, "t@x".data, "f@y".data⟩ [] ["other".data]
    ⟨⟨none, none⟩, false, "/p".data, none⟩ rfl
  exact ⟨by rw [h.1]; decide, h.2⟩

/-- C7: calling `setUserInfo` a second time within the same request
returns the request unchanged — the `userInfo` is identical to the one
the first call produced.  In production the guard
`req.userInfo = req.userInfo ? req.userInfo : {...}` keeps the cached
record (the email expression is re-evaluated but discarded); in
development the recomputed synthetic record equals the stored one. -/
theorem setUserInfo_idempotent (md5 : Str → Str) (env : Env) (req r : Req)
    (h : setUserInfo md5 env req = some r) :
    setUserInfo md5 env r = some r := by
  unfold setUserInfo at h ⊢
  by_cases hdev : env.isDev = true
  · rw [if_pos hdev] at h ⊢
    injection h with h'
    rw [← h']
  · rw [if_neg hdev] at h ⊢
    cases hem : extractProdEmail env.isSlackOauth req.session with
    | none =>
      rw [hem] at h
      cases h
    | some em =>
      rw [hem] at h
      injection h with h'
      have hsess : r.session = req.session := by rw [← h']
      rw [hsess, hem]
      rw [← h']
      rfl

/-- C7 (witness): a concrete request on which a second call returns the
same state. -/
theorem setUserInfo_idempotent_witness :
    setUserInfo (fun _ => []) ⟨true, false, [], []⟩
      ⟨⟨none, none⟩, false, [], some ⟨some ("10".data), [], some []⟩⟩ =
      some ⟨⟨none, none⟩, false, [], some ⟨some ("10".data), [], some []⟩⟩ :=
  setUserInfo_idempotent (fun _ => []) ⟨true, false, [], []⟩
    ⟨⟨none, none⟩, false, [], none⟩
    ⟨⟨none, none⟩, false, [], some ⟨some ("10".data), [], some []⟩⟩
    (by decide)

/-- C8: in production mode, for a session profile `u` with id `i`, the
computed `UserInfo` has `userId = some i`, `analyticsUserId` equal to the
digest of `i ++ "library"`, and the email extracted per active provider
(Slack: `profile.email`; Google: `profile.emails[0].value`); the
analytics id is a pure function of the userId, hence equal across any
two computations for the same userId. -/
theorem setUserInfo_production_fields (md5 : Str → Str) (env : Env)
    (req : Req) (u : Profile) (i : Str)
    (hdev : env.isDev = false)
    (hpass : req.session.passport = some ⟨some u⟩)
    (hmemo : req.userInfo = none)
    (hid : u.id = some i)
    (hshape : env.isSlackOauth = true ∨ ∃ e rest, u.emails = some (e :: rest)) :
    (∃ em : Option Str,
      setUserInfo md5 env req = some { req with userInfo := some (
        { userId := some i,
          analyticsUserId := md5 (i ++ ("library".data)),
          email := em } : UserInfo) } ∧
      (env.isSlackOauth = true → em = u.email) ∧
      (∀ e rest, env.isSlackOauth = false → u.emails = some (e :: rest) →
        em = e.value)) ∧
    (∀ a b : Option Str, a = b → analyticsIdOf md5 a = analyticsIdOf md5 b) := by
  refine ⟨?_, fun a b hab => by rw [hab]⟩
  cases hb : env.isSlackOauth with
  | true =>
    refine ⟨u.email, ?_, fun _ => rfl, ?_⟩
    · simp [setUserInfo, extractProdEmail, hpass, hb, hdev, hmemo, hid,
        analyticsIdOf, jsStr]
    · intro e rest hf _
      cases hf
  | false =>
    rcases hshape with hs | ⟨e, rest, hem⟩
    · rw [hb] at hs
      cases hs
    · refine ⟨e.value, ?_, ?_, ?_⟩
      · simp [setUserInfo, extractProdEmail, hpass, hb, hdev, hmemo, hid, hem,
          analyticsIdOf, jsStr]
      · intro hs
        cases hs
      · intro e' rest' _ hem'
        rw [hem] at hem'
        injection hem' with h2
        injection h2 with h3 _
        rw [h3]

/-- C8 (witness): a concrete Slack-mode computation. -/
theorem setUserInfo_production_fields_witness :
    (∃ em : Option Str,
      setUserInfo (fun s => s) ⟨false, true, [], []⟩
        ⟨⟨some ⟨some ⟨none, some ("a@x".data), some ("7".data)⟩⟩, none⟩,
          true, [], none⟩ =
        some ⟨⟨some ⟨some ⟨none, some ("a@x".data), some ("7".data)⟩⟩, none⟩,
          true, [], some ⟨some ("7".data), "7library".data, em⟩⟩ ∧
      ((true : Bool) = true → em = some ("a@x".data)) ∧
      (∀ e rest, (true : Bool) = false →
        (some [] : Option (List EmailEntry)) = some (e :: rest) →
        em = e.value)) ∧
    (∀ a b : Option Str, a = b →
      analyticsIdOf (fun s => s) a = analyticsIdOf (fun s => s) b) := by
  have h := setUserInfo_production_fields (fun s => s) ⟨false, true, [], []⟩
    ⟨⟨some ⟨some ⟨none, some ("a@x".data), some ("7".data)⟩⟩, none⟩, true, [], none⟩
    ⟨none, some ("a@x".data), some ("7".data)⟩ ("7".data)
    rfl rfl rfl rfl (Or.inl rfl)
  obtain ⟨⟨em, h1, h2, _⟩, h4⟩ := h
  exact ⟨⟨em, by exact h1, fun _ => h2 rfl, fun e rest hf _ => absurd hf (by decide)⟩, h4⟩

/-- `splitCommaWs` always yields at least one segment (JS
`String.prototype.split` never returns an empty array). -/
theorem splitCommaWs_ne_nil (l : List Char) : splitCommaWs l ≠ [] := by
  cases l with
  | nil => simp [splitCommaWs]
  | cons c rest =>
    unfold splitCommaWs
    by_cases hc : c = ','
    · rw [if_pos hc]
      cases rest with
      | nil => simp
      | cons d ds =>
        show (if isJsWs d = true then [] :: splitCommaWs ds
          else [] :: splitCommaWs (d :: ds)) ≠ []
        by_cases hw : isJsWs d = true
        · rw [if_pos hw]
          simp
        · rw [if_neg hw]
          simp
    · rw [if_neg hc]
      cases hr : splitCommaWs rest with
      | nil => simp
      | cons seg segs =>
        show ((c :: seg) :: segs) ≠ []
        simp

/-- C9: the authorization set is built exactly once, at module load, from
the comma-separated `APPROVED_DOMAINS` value and is bound to a `const`
never mutated afterwards (in this embedding it is the pure value
`mkDomains`); the split result is never empty, and an absent
configuration value makes the member access throw at startup (`none`)
rather than produce an empty or default set. -/
theorem mkDomains_spec :
    mkDomains none = none ∧
    ∀ (s : Str) (l : List Str), mkDomains (some s) = some l → l ≠ [] := by
  refine ⟨rfl, fun s l h => ?_⟩
  injection h with h'
  rw [← h']
  exact splitCommaWs_ne_nil s

/-- C9 (witness): a concrete two-domain configuration value. -/
theorem mkDomains_spec_witness :
    mkDomains none = none ∧ (["a".data, "b".data] : List Str) ≠ [] :=
  ⟨mkDomains_spec.1, mkDomains_spec.2 ("a,b".data) ["a".data, "b".data] (by decide)⟩

/-- C10: with the authorization set { ".*" } and an authenticated Google
session whose profile has no `emails` array, the Domain Matcher judges
the request authorized (the catch-all pattern matches the empty domain),
but `setUserInfo` then throws dereferencing `emails[0]`, so the gate's
authorized path ends in an escaped exception: the authorized path is not
total over profiles the matcher accepts. -/
theorem authGate_authorized_throws :
    isAuthorized jsTest [".*".data]
      (passportUserOf ⟨⟨some ⟨some ⟨none, none, some ("7".data)⟩⟩, none⟩,
        true, "/x".data, none⟩) = true ∧
    setUserInfo (fun _ => []) ⟨false, false, [], []⟩
      ⟨⟨some ⟨some ⟨none, none, some ("7".data)⟩⟩, none⟩,
        true, "/x".data, none⟩ = none ∧
    authGate (fun _ => []) jsTest ⟨false, false, [], []⟩ [".*".data]
      ⟨⟨some ⟨some ⟨none, none, some ("7".data)⟩⟩, none⟩,
        true, "/x".data, none⟩ =
      (GateResult.threw,
        ⟨⟨some ⟨some ⟨none, none, some ("7".data)⟩⟩, none⟩,
          true, "/x".data, none⟩) := by decide
